import Mathlib

/-!
Shallow embedding of the recruitment-fulfillment dashboard (src/app.py)
and proofs of the specified properties of its filtering, metric and
aggregation logic.

Modelling conventions:
* A spreadsheet row (`Record`) holds one `Option String` per column: `none`
  models a missing cell (pandas `NaN`).  A pandas comparison `NaN == v` is
  `False`, which `Option.some` equality captures exactly.
* Row collections are `List Record`, preserving source order, as a pandas
  DataFrame does.
* Percentages are rationals (`ℚ`); Python floats are exact on the small
  integer arithmetic involved here.  A pandas `NaN` arising from `0/0` is
  modelled as `Option.none`.
-/

/-- One row of the loaded table `data/DB_BI_AMK_AKP.xlsx`.  Each field is
the cell of the column of the same name; `none` is a missing cell. -/
structure Record where
  agency : Option String
  principle : Option String
  area : Option String
  jobTitle : Option String
  regional : Option String
  statusQuota : Option String
  recruitmentStatus : Option String
deriving DecidableEq, Repr

/-- The six sidebar filter dimensions (keys of the `filters` dict in
app.py, lines 52-59). -/
inductive Dim where
  | agency
  | principle
  | area
  | jobTitle
  | regional
  | statusQuota
deriving DecidableEq, Repr, Fintype

/-- The cell of a record in a given filter dimension (`filtered[col]`). -/
def Record.field (r : Record) : Dim → Option String
  | .agency => r.agency
  | .principle => r.principle
  | .area => r.area
  | .jobTitle => r.jobTitle
  | .regional => r.regional
  | .statusQuota => r.statusQuota

/-- A sidebar Filter Selection: one chosen value per dimension, where the
string "All" is the wildcard (app.py lines 48-59). -/
structure Selection where
  agency : String
  principle : String
  area : String
  jobTitle : String
  regional : String
  statusQuota : String
deriving DecidableEq, Repr

/-- The value the selection assigns to a dimension. -/
def Selection.get (s : Selection) : Dim → String
  | .agency => s.agency
  | .principle => s.principle
  | .area => s.area
  | .jobTitle => s.jobTitle
  | .regional => s.regional
  | .statusQuota => s.statusQuota

/-- The dimensions in the iteration order of the `filters` dict
(insertion order in app.py lines 52-59). -/
def dims : List Dim :=
  [.agency, .principle, .area, .jobTitle, .regional, .statusQuota]

/-- One pass of the filtering loop body (app.py lines 62-64):
if the selected value is not "All", keep the rows whose cell equals it
(`filtered = filtered[filtered[col] == val]`; a missing cell compares
unequal to every value, as NaN does in pandas). -/
def filterDim (sel : Selection) (rows : List Record) (d : Dim) : List Record :=
  if sel.get d ≠ "All" then
    rows.filter (fun r => r.field d == some (sel.get d))
  else
    rows

/-- The filtering loop of app.py lines 61-64: start from a copy of the
full table and narrow it once per dimension.  This is the spec's
`applyFilters(table, selection)`. -/
def applyFilters (table : List Record) (sel : Selection) : List Record :=
  dims.foldl (filterDim sel) table

/-- Conjunctive one-pass description of the filter (spec 4.1 wording):
a record survives iff, for every dimension not set to "All", its cell
equals the selected value exactly.  Stated separately from `applyFilters`
so that the loop can be proven equivalent to it. -/
def matchesSpec (sel : Selection) (r : Record) : Bool :=
  dims.all (fun d => sel.get d == "All" || r.field d == some (sel.get d))

/-- Count of rows whose Recruitment Status cell equals "OPEN"
(`(data["Recruitment Status"] == "OPEN").sum()`, app.py line 72). -/
def openCount (data : List Record) : Nat :=
  (data.filter (fun r => r.recruitmentStatus == some "OPEN")).length

/-- Count of rows whose Recruitment Status cell equals "RECRUIT"
(`(data["Recruitment Status"] == "RECRUIT").sum()`, app.py line 73). -/
def recruitCount (data : List Record) : Nat :=
  (data.filter (fun r => r.recruitmentStatus == some "RECRUIT")).length

/-- The KPI of app.py lines 71-74, with Python operator precedence kept
exactly: `(1-(r / (r+o)) * 100) if o > 0 else 0` parses as
`1 - ((r/(r+o)) * 100)`, because `*` binds tighter than `-`. -/
def fulfillment (data : List Record) : ℚ :=
  let o : ℚ := openCount data
  let r : ℚ := recruitCount data
  if (openCount data) > 0 then 1 - (r / (r + o)) * 100 else 0

/-- Modelled from the spec: the top-level KPI formula as the spec states
it in section 4.2, `(1 - recruit/(open + recruit)) * 100` when `open > 0`
else `0`.  Kept distinct from `fulfillment` (the code) so the two can be
compared. -/
def fulfillmentSpec (data : List Record) : ℚ :=
  let o : ℚ := openCount data
  let r : ℚ := recruitCount data
  if (openCount data) > 0 then (1 - r / (o + r)) * 100 else 0

/-- A row with every cell missing; concrete test rows override fields. -/
def blankRecord : Record :=
  ⟨none, none, none, none, none, none, none⟩

/-- A row carrying only a Recruitment Status value. -/
def statusRec (s : String) : Record :=
  { blankRecord with recruitmentStatus := some s }

/-- The spec's scenario subset: 10 records, 6 OPEN and 4 RECRUIT. -/
def subset64 : List Record :=
  List.replicate 6 (statusRec "OPEN") ++ List.replicate 4 (statusRec "RECRUIT")

/-- A two-record subset, 1 OPEN and 1 RECRUIT. -/
def subset11 : List Record :=
  [statusRec "OPEN", statusRec "RECRUIT"]

/-- The (Principle, Recruitment Status) key pairs of a subset, one per
row, in row order.  `groupby(["Principle", "Recruitment Status"])`
(app.py line 94) keys on these pairs and silently drops any row in which
either key cell is missing (pandas `dropna=True` default). -/
def principlePairs (data : List Record) : List (String × String) :=
  data.filterMap (fun r =>
    match r.principle, r.recruitmentStatus with
    | some p, some s => some (p, s)
    | _, _ => none)

/-- The grouped counts of app.py lines 92-97:
`filtered.groupby(["Principle","Recruitment Status"]).size()`, one row per
(Principle, Status) pair that occurs, holding its occurrence count.
Pandas emits the groups in sorted-key order; this embedding keeps
first-seen order, which the stated properties (positivity of counts and
their total) do not depend on. -/
def principle_chart (data : List Record) : List ((String × String) × Nat) :=
  (principlePairs data).dedup.map (fun ps => (ps, (principlePairs data).count ps))

/-- Total record count of one Principle group across all statuses, i.e.
`principle_chart.groupby("Principle")["Count"].sum()` (app.py
lines 100-103) evaluated at one principle. -/
def principleTotal (data : List Record) (p : String) : Nat :=
  ((principlePairs data).filter (fun x => x.1 == p)).length

/-- The distinct Principle values occurring in `principle_chart`, i.e. the
index of the per-principle totals series, in first-seen order. -/
def principleKeys (data : List Record) : List String :=
  ((principlePairs data).map Prod.fst).dedup

/-- The display order of app.py lines 100-106: principles sorted by total
count descending (`sort_values(ascending=False)`).  Pandas uses an
unstable quicksort, so the order among equal totals is unspecified; the
embedding realizes the sort as an insertion sort on the same descending
key. -/
def order (data : List Record) : List String :=
  List.insertionSort
    (fun a b => principleTotal data b ≤ principleTotal data a)
    (principleKeys data)

/-- The distinct Regional values of the rows that survive
`groupby(["Regional", "Recruitment Status"])` (app.py lines 204-210):
rows whose Regional and Recruitment Status cells are both present.  After
`.unstack(fill_value=0).reset_index()` these are exactly the rows of
`temp`.  Pandas emits them in sorted order; this embedding keeps
first-seen order, which the stated properties do not depend on. -/
def regionalKeys (data : List Record) : List String :=
  (data.filterMap (fun r =>
    match r.regional, r.recruitmentStatus with
    | some g, some _ => some g
    | _, _ => none)).dedup

/-- The per-region OPEN count: the "OPEN" column of `temp` for one region
(0 when no such rows exist, matching `unstack(fill_value=0)` and the
`temp.get("OPEN", 0)` default when the column is absent). -/
def regionalOpenCount (data : List Record) (g : String) : Nat :=
  (data.filter (fun r =>
    r.regional == some g && r.recruitmentStatus == some "OPEN")).length

/-- The per-region RECRUIT count: the "RECRUIT" column of `temp` for one
region, with the same 0 defaults. -/
def regionalRecruitCount (data : List Record) (g : String) : Nat :=
  (data.filter (fun r =>
    r.regional == some g && r.recruitmentStatus == some "RECRUIT")).length

/-- The per-region `Fulfillment %` value of app.py lines 212-215:
`temp.get("RECRUIT", 0) / (temp.get("OPEN", 0) + temp.get("RECRUIT", 0)) * 100`
evaluated at one row of `temp`, in the case where at least one of the
"OPEN"/"RECRUIT" columns of `temp` exists, so that the division is an
elementwise pandas Series division.  There a region with
OPEN + RECRUIT = 0 divides `0/0`, which yields float `NaN` (no exception),
modelled as `none`.  (When neither column exists the division is a scalar
`0 / 0` and raises instead; see `regional_chart`.) -/
def regionalFulfillment (data : List Record) (g : String) : Option ℚ :=
  let o := regionalOpenCount data g
  let r := regionalRecruitCount data g
  if o + r = 0 then none
  else some (((r : ℚ) / ((o : ℚ) + (r : ℚ))) * 100)

/-- True when `unstack` gives `temp` at least one of the "OPEN"/"RECRUIT"
columns: some row of the subset survives the groupby (its Regional cell is
present; an OPEN/RECRUIT status cell is itself non-missing) and has
Recruitment Status "OPEN" or "RECRUIT". -/
def hasOpenOrRecruitColumn (data : List Record) : Bool :=
  data.any (fun r =>
    r.regional.isSome &&
      (r.recruitmentStatus == some "OPEN" || r.recruitmentStatus == some "RECRUIT"))

/-- The data behind one regional chart (app.py lines 203-215): every
region present in `temp`, paired with its `Fulfillment %` value.  This is
the spec's `fulfillmentByGroup` for groupColumn = Regional.  The outer
`Option` models fallibility: when the subset has no OPEN row and no
RECRUIT row at all, both `temp.get(..., 0)` calls return the scalar int 0,
line 212-215 computes plain `0 / (0 + 0)` and raises `ZeroDivisionError`,
producing no chart; that outcome is `none`. -/
def regional_chart (data : List Record) : Option (List (String × Option ℚ)) :=
  if hasOpenOrRecruitColumn data then
    some ((regionalKeys data).map (fun g => (g, regionalFulfillment data g)))
  else
    none

/-- A row in region "B" whose status is neither OPEN nor RECRUIT. -/
def holdRecB : Record :=
  { blankRecord with regional := some "B", recruitmentStatus := some "HOLD" }

/-- A row in region "A" with status OPEN. -/
def openRecA : Record :=
  { blankRecord with regional := some "A", recruitmentStatus := some "OPEN" }

-- ====================================================================
-- Helper lemmas
-- ====================================================================

/-- Each pass of the filtering loop is a `List.filter` by the per-dimension
predicate (trivially so when the selection is "All"). -/
theorem filterDim_eq_filter (sel : Selection) (rows : List Record) (d : Dim) :
    filterDim sel rows d
      = rows.filter (fun r => sel.get d == "All" || r.field d == some (sel.get d)) := by
  unfold filterDim
  by_cases h : sel.get d = "All"
  · simp [h]
  · simp only [h, ne_eq, not_false_eq_true, if_pos]
    refine List.filter_congr ?_
    intro r _
    simp [h]

/-- The sequential filtering loop over any list of dimensions equals one
conjunctive filter. -/
theorem foldl_filterDim_eq (sel : Selection) (ds : List Dim) (table : List Record) :
    ds.foldl (filterDim sel) table
      = table.filter
          (fun r => ds.all (fun d => sel.get d == "All" || r.field d == some (sel.get d))) := by
  induction ds generalizing table with
  | nil => simp
  | cons d ds ih =>
    rw [List.foldl_cons, ih, filterDim_eq_filter, List.filter_filter]
    refine List.filter_congr ?_
    intro r _
    simp [Bool.and_comm]

/-- The filtering loop of app.py keeps exactly the records matching every
non-"All" constraint, in source order. -/
theorem applyFilters_eq_filter (table : List Record) (sel : Selection) :
    applyFilters table sel = table.filter (matchesSpec sel) := by
  unfold applyFilters matchesSpec
  exact foldl_filterDim_eq sel dims table

-- ====================================================================
-- Claims
-- ====================================================================

/-- Monotonicity of the recruited fraction: with the competing count held
fixed and positive, a larger recruit count gives a larger fraction. -/
theorem frac_mono {a b c : ℚ} (ha : 0 ≤ a) (hab : a ≤ b) (hc : 0 < c) :
    a / (a + c) ≤ b / (b + c) := by
  have h1 : 0 < a + c := by linarith
  have h2 : 0 < b + c := by linarith
  rw [div_le_div_iff₀ h1 h2]
  nlinarith [mul_le_mul_of_nonneg_right hab hc.le]

/-- C8: appending RECRUIT records to a subset leaves its OPEN count
unchanged and never increases the KPI: `fulfillment` is monotonically
decreasing in the RECRUIT count for a fixed positive OPEN count (true of
the code formula `1 - (r/(r+o))*100` as well as of the spec formula). -/
theorem fulfillment_antitone_in_recruits (s rs : List Record)
    (hrs : ∀ r ∈ rs, r.recruitmentStatus = some "RECRUIT")
    (ho : 0 < openCount s) :
    fulfillment (s ++ rs) ≤ fulfillment s := by
  have hopen : openCount (s ++ rs) = openCount s := by
    unfold openCount
    rw [List.filter_append, List.length_append]
    have hnil : rs.filter (fun r => r.recruitmentStatus == some "OPEN") = [] := by
      rw [List.filter_eq_nil_iff]
      intro r hr
      rw [hrs r hr]
      decide
    rw [hnil]
    simp
  have hrec : recruitCount s ≤ recruitCount (s ++ rs) := by
    unfold recruitCount
    rw [List.filter_append, List.length_append]
    exact Nat.le_add_right _ _
  rw [fulfillment, fulfillment, hopen, if_pos ho, if_pos ho]
  have hO : (0 : ℚ) < (openCount s : ℚ) := by exact_mod_cast ho
  have hR : ((recruitCount s : ℚ)) ≤ (recruitCount (s ++ rs) : ℚ) := by exact_mod_cast hrec
  have key : ((recruitCount s : ℚ)) / ((recruitCount s : ℚ) + (openCount s : ℚ))
      ≤ ((recruitCount (s ++ rs) : ℚ)) / ((recruitCount (s ++ rs) : ℚ) + (openCount s : ℚ)) :=
    frac_mono (by positivity) hR hO
  linarith

/-- Witness for C8: one OPEN record, then one RECRUIT record appended. -/
theorem fulfillment_antitone_in_recruits_witness :
    (∀ r ∈ [statusRec "RECRUIT"], r.recruitmentStatus = some "RECRUIT") ∧
      0 < openCount [statusRec "OPEN"] ∧
      fulfillment ([statusRec "OPEN"] ++ [statusRec "RECRUIT"])
        ≤ fulfillment [statusRec "OPEN"] :=
  ⟨by decide, by decide,
    fulfillment_antitone_in_recruits [statusRec "OPEN"] [statusRec "RECRUIT"]
      (by decide) (by decide)⟩

/-- C5: for every table, applying the Filter Engine with every one of the
six dimensions set to "All" returns the full table unchanged. -/
theorem applyFilters_all_identity (table : List Record) (sel : Selection)
    (h : ∀ d : Dim, sel.get d = "All") :
    applyFilters table sel = table := by
  rw [applyFilters_eq_filter]
  have hm : ∀ r ∈ table, matchesSpec sel r = true := by
    intro r _
    unfold matchesSpec
    simp [List.all_eq_true]
    intro d _
    left
    exact h d
  calc table.filter (matchesSpec sel)
      = table.filter (fun _ => true) := List.filter_congr hm
    _ = table := List.filter_true table

/-- Witness for C5 at a concrete table and the all-"All" selection. -/
theorem applyFilters_all_identity_witness :
    (∀ d : Dim, (Selection.mk "All" "All" "All" "All" "All" "All").get d = "All") ∧
      applyFilters [statusRec "OPEN", blankRecord]
          (Selection.mk "All" "All" "All" "All" "All" "All")
        = [statusRec "OPEN", blankRecord] :=
  ⟨by decide,
    applyFilters_all_identity [statusRec "OPEN", blankRecord]
      (Selection.mk "All" "All" "All" "All" "All" "All") (by decide)⟩

/-- C1: the claim (top-level KPI equals `(1 - recruit/(open+recruit)) * 100`,
yielding 60.0 on 6 OPEN / 4 RECRUIT) fails on the code: line 74 of app.py,
`(1-(r / (r+o)) * 100)`, parses with `*` binding tighter than `-`, so the
code returns `1 - (recruit/(open+recruit))*100` = -39.0 on that subset,
while the formula the spec states (and clearly intends, for a metric
rendered as a percentage) gives 60.0. -/
theorem fulfillment_scenario_precedence_bug :
    fulfillment subset64 = -39 ∧ fulfillmentSpec subset64 = 60 := by
  have ho : openCount subset64 = 6 := by decide
  have hr : recruitCount subset64 = 4 := by decide
  constructor
  · rw [fulfillment, ho, hr]
    norm_num
  · rw [fulfillmentSpec, ho, hr]
    norm_num

/-- C2: the claim (the returned value always lies in [0, 100]) fails on the
code: because of the precedence slip on line 74 the KPI is
`1 - (recruit/(open+recruit))*100`, which on a subset with 1 OPEN and
1 RECRUIT record evaluates to -49, a negative value. -/
theorem fulfillment_negative_value :
    fulfillment subset11 = -49 ∧ fulfillment subset11 < 0 := by
  have ho : openCount subset11 = 1 := by decide
  have hr : recruitCount subset11 = 1 := by decide
  have hv : fulfillment subset11 = -49 := by
    rw [fulfillment, ho, hr]
    norm_num
  exact ⟨hv, by rw [hv]; norm_num⟩

/-- C3: for every subset whose OPEN count is zero, the KPI returns exactly
0 (the `else` branch of line 74), however many RECRUIT records the subset
holds; in particular the empty subset yields 0. -/
theorem fulfillment_zero_when_no_open (data : List Record)
    (h : openCount data = 0) :
    fulfillment data = 0 := by
  rw [fulfillment, h]
  norm_num

/-- Witness for C3 on a subset of five RECRUIT records and no OPEN ones. -/
theorem fulfillment_zero_when_no_open_witness :
    openCount (List.replicate 5 (statusRec "RECRUIT")) = 0 ∧
      fulfillment (List.replicate 5 (statusRec "RECRUIT")) = 0 :=
  ⟨by decide,
    fulfillment_zero_when_no_open (List.replicate 5 (statusRec "RECRUIT")) (by decide)⟩

/-- C6: for every table and selection, the Filter Engine returns exactly
the records whose cell equals the selected value (exact, case-sensitive
string match) in every dimension not set to "All", conjunctively; being a
`List.filter` of the source list, the result preserves relative source
order and may be empty. -/
theorem applyFilters_conjunctive_exact (table : List Record) (sel : Selection) :
    applyFilters table sel
      = table.filter
          (fun r => dims.all
            (fun d => sel.get d == "All" || r.field d == some (sel.get d))) :=
  foldl_filterDim_eq sel dims table

/-- C10: whenever a dimension is constrained to a specific (non-"All")
value, every record whose cell in that dimension is missing is excluded
from the filtered view, because equality against a missing cell never
holds (as a pandas `NaN == value` comparison is always False). -/
theorem applyFilters_excludes_missing (table : List Record) (sel : Selection)
    (d : Dim) (r : Record)
    (hd : sel.get d ≠ "All") (hr : r.field d = none) :
    r ∉ applyFilters table sel := by
  rw [applyFilters_eq_filter]
  intro hmem
  have hall : matchesSpec sel r = true := (List.mem_filter.mp hmem).2
  unfold matchesSpec at hall
  rw [List.all_eq_true] at hall
  have hdim : d ∈ dims := by cases d <;> decide
  have hd2 := hall d hdim
  rw [hr] at hd2
  simp at hd2
  exact hd hd2

/-- Witness for C10: a record with a missing Agency cell is excluded once
the Agency filter selects "AMK". -/
theorem applyFilters_excludes_missing_witness :
    (Selection.mk "AMK" "All" "All" "All" "All" "All").get .agency ≠ "All" ∧
      blankRecord.field .agency = none ∧
      blankRecord ∉ applyFilters [blankRecord]
        (Selection.mk "AMK" "All" "All" "All" "All" "All") :=
  ⟨by decide, by decide,
    applyFilters_excludes_missing [blankRecord]
      (Selection.mk "AMK" "All" "All" "All" "All" "All") .agency blankRecord
      (by decide) (by decide)⟩

/-- C7 counterexample: on a one-record subset whose Principle cell is
missing, `principle_chart` emits nothing (the pandas groupby drops the
row), so the emitted counts sum to 0, not to the subset size 1. -/
theorem principle_chart_sum_counterexample :
    ((principle_chart [statusRec "OPEN"]).map Prod.snd).sum
      ≠ [statusRec "OPEN"].length := by
  decide

/-- Counting with the derived product `BEq` agrees with counting with the
`BEq` obtained from decidable equality (both are lawful). -/
theorem count_prod_beq (l : List (String × String)) (a : String × String) :
    @List.count (String × String) instBEqProd a l
      = @List.count (String × String) instBEqOfDecidableEq a l := by
  show List.countP (fun x => @BEq.beq _ instBEqProd x a) l
      = List.countP (fun x => @BEq.beq _ instBEqOfDecidableEq x a) l
  refine List.countP_congr ?_
  intro x _
  simp [beq_iff_eq, instBEqOfDecidableEq, decide_eq_true_iff]

/-- C7 (amended): every (group, status) pair `principle_chart` emits has a
positive count, and the emitted counts sum to the number of records whose
Principle and Recruitment Status cells are both present (hence to the
subset size exactly when no such cell is missing). -/
theorem principle_chart_counts (data : List Record) :
    (∀ pr ∈ principle_chart data, 0 < pr.2) ∧
      ((principle_chart data).map Prod.snd).sum = (principlePairs data).length := by
  constructor
  · intro pr hpr
    unfold principle_chart at hpr
    rcases List.mem_map.mp hpr with ⟨ps, hps, rfl⟩
    exact List.count_pos_iff.mpr (List.mem_dedup.mp hps)
  · have hmaps : (principle_chart data).map Prod.snd
        = (principlePairs data).dedup.map
            (fun ps => (principlePairs data).count ps) := by
      unfold principle_chart
      rw [List.map_map]
      rfl
    rw [hmaps]
    simp only [count_prod_beq]
    exact List.sum_map_count_dedup_eq_length (principlePairs data)

/-- C9: the display order of principles is sorted descending by each
principle's total record count across all statuses (ties broken in an
unspecified way), and it is a permutation of the distinct principles of
the grouped data. -/
theorem order_sorted_desc (data : List Record) :
    List.Sorted (fun a b => principleTotal data b ≤ principleTotal data a)
      (order data) ∧
      (order data).Perm (principleKeys data) := by
  constructor
  · haveI : IsTotal String
        (fun a b => principleTotal data b ≤ principleTotal data a) :=
      ⟨fun a b => Nat.le_total (principleTotal data b) (principleTotal data a)⟩
    haveI : IsTrans String
        (fun a b => principleTotal data b ≤ principleTotal data a) :=
      ⟨fun _ _ _ hab hbc => le_trans hbc hab⟩
    exact List.sorted_insertionSort _ _
  · exact List.perm_insertionSort _ _

/-- C4 counterexample: on the one-record subset whose only row is region
"B" with status "HOLD", neither an "OPEN" nor a "RECRUIT" column exists in
`temp`, so line 212-215 divides the scalar int `0 / (0 + 0)` and raises
`ZeroDivisionError`: the chart computation aborts (`none`) and region "B"
does not appear with a NaN percentage, contrary to the claim. -/
theorem regional_chart_crash_counterexample :
    regional_chart [holdRecB] = none := by
  decide

/-- C4 (amended): provided the subset has at least one OPEN or RECRUIT row
(so the Series division of lines 212-215 happens instead of a scalar
`0/0` ZeroDivisionError), the regional chart is produced; every region
occurring in the grouped data appears in it; its percentage is the raw
recruited fraction `recruit / (open + recruit) * 100` (not the one-minus
form of the KPI) when the region has any OPEN or RECRUIT record, and is
undefined (`none`, the pandas NaN) when the region's combined
OPEN + RECRUIT count is zero — the region is still present, not
dropped. -/
theorem regional_chart_formula_and_presence (data : List Record) (g : String)
    (r0 : Record) (hmem : r0 ∈ data) (hg : r0.regional = some g)
    (hs : r0.recruitmentStatus.isSome)
    (hcol : hasOpenOrRecruitColumn data = true) :
    (∃ chart, regional_chart data = some chart ∧
        (g, regionalFulfillment data g) ∈ chart) ∧
      (regionalOpenCount data g + regionalRecruitCount data g = 0 →
        regionalFulfillment data g = none) ∧
      (0 < regionalOpenCount data g + regionalRecruitCount data g →
        regionalFulfillment data g
          = some (((regionalRecruitCount data g : ℚ) /
              ((regionalOpenCount data g : ℚ) + (regionalRecruitCount data g : ℚ)))
              * 100)) := by
  refine ⟨?_, ?_, ?_⟩
  · refine ⟨(regionalKeys data).map (fun g => (g, regionalFulfillment data g)), ?_, ?_⟩
    · unfold regional_chart
      rw [if_pos hcol]
    · have hkey : g ∈ regionalKeys data := by
        unfold regionalKeys
        rw [List.mem_dedup]
        rcases Option.isSome_iff_exists.mp hs with ⟨s, hsr⟩
        refine List.mem_filterMap.mpr ⟨r0, hmem, ?_⟩
        rw [hg, hsr]
      exact List.mem_map.mpr ⟨g, hkey, rfl⟩
  · intro h0
    unfold regionalFulfillment
    rw [if_pos h0]
  · intro hpos
    unfold regionalFulfillment
    rw [if_neg (Nat.pos_iff_ne_zero.mp hpos)]

/-- Witness for C4 on a two-record subset: one OPEN row in region "A"
(so the chart is produced at all) and one "HOLD" row in region "B", whose
combined OPEN + RECRUIT count is zero. -/
theorem regional_chart_formula_and_presence_witness :
    holdRecB ∈ [openRecA, holdRecB] ∧
      hasOpenOrRecruitColumn [openRecA, holdRecB] = true ∧
      ((∃ chart, regional_chart [openRecA, holdRecB] = some chart ∧
          ("B", regionalFulfillment [openRecA, holdRecB] "B") ∈ chart) ∧
        (regionalOpenCount [openRecA, holdRecB] "B"
            + regionalRecruitCount [openRecA, holdRecB] "B" = 0 →
          regionalFulfillment [openRecA, holdRecB] "B" = none) ∧
        (0 < regionalOpenCount [openRecA, holdRecB] "B"
            + regionalRecruitCount [openRecA, holdRecB] "B" →
          regionalFulfillment [openRecA, holdRecB] "B"
            = some (((regionalRecruitCount [openRecA, holdRecB] "B" : ℚ) /
                ((regionalOpenCount [openRecA, holdRecB] "B" : ℚ) +
                  (regionalRecruitCount [openRecA, holdRecB] "B" : ℚ))) * 100))) :=
  ⟨by decide, by decide,
    regional_chart_formula_and_presence [openRecA, holdRecB] "B" holdRecB
      (by decide) (by decide) (by decide) (by decide)⟩
